import Mathlib

/-!
Shallow embedding of the core of `src/user/user_main.c` (ESP8266 TCP LED server):
the digit decoder `process_digit_key`, the TCP receive scan `on_tcp_server_receive`,
the accept/disconnect counters, and the periodic timer callback `on_timer`,
together with theorems about their behaviour.

Machine integers are modelled as `Nat` (unsigned registers/counters) and `Int`
(the signed `sint8` connection counter and C `char` byte values); overflow is
irrelevant at the values the theorems exercise.  The 32-bit GPIO output register
is modelled as a `Nat` below `2 ^ 32`.
-/

/-! ## Constants from user_main.c -/

/-- `STATE_DISCONNECTED` -/
def STATE_DISCONNECTED : Nat := 0

/-- `STATE_CLIENT_WIFI_CONNECTED` -/
def STATE_CLIENT_WIFI_CONNECTED : Nat := 1

/-- `STATE_CLIENT_SOCKET_CONNECTED` -/
def STATE_CLIENT_SOCKET_CONNECTED : Nat := 2

/-- `TIMER_PERIOD_STATE_UPDATE` (1 tick = 100 ms) -/
def TIMER_PERIOD_STATE_UPDATE : Nat := 50

/-- `TIMER_PERIOD_WIFI_STATUS_LED` -/
def TIMER_PERIOD_WIFI_STATUS_LED : Nat := 5

/-- `TIMER_PERIOD_RESET` -/
def TIMER_PERIOD_RESET : Nat := 1000000

/-- `CHAR_DIGITS_START = '0'` as a C `char` value. -/
def CHAR_DIGITS_START : Int := 48

/-- `CHAR_DIGITS_END = '7'` as a C `char` value. -/
def CHAR_DIGITS_END : Int := 55

/-- `GPIO_PIN_LED_INT = 2`, the internal status LED pin. -/
def GPIO_PIN_LED_INT : Nat := 2

/-- `GPIO_PIN_LED_1 = 12`, the first external command LED pin
(LED_2 = 13 and LED_3 = 14 are the next two bits of the same register). -/
def GPIO_PIN_LED_1 : Nat := 12

/-- All-ones mask of the 32-bit GPIO output register. -/
def GPIO_REG_MASK : Nat := 2 ^ 32 - 1

/-! ## GPIO model

The SDK call `gpio_output_set(set_mask, clear_mask, enable_mask, disable_mask)`
writes `set_mask` to the W1TS (write-1-to-set) address of the 32-bit output
register and then `clear_mask` to the W1TC (write-1-to-clear) address, so a bit
present in both masks ends up cleared.  The enable/disable masks drive the
separate direction register, which no claim concerns; every call in the core
passes 0 for them.  `clear_mask` fits in 32 bits in every call made by the core,
so `GPIO_REG_MASK ^^^ clear_mask` is its 32-bit complement. -/
def gpio_output_set (set_mask clear_mask enable_mask disable_mask out_reg : Nat) : Nat :=
  (out_reg ||| set_mask) &&& (GPIO_REG_MASK ^^^ clear_mask)

/-- The internal status LED on GPIO2 is wired active-low: the LED is lit exactly
when output bit 2 is clear.  (The source's own comments fix this reading:
"LED on - client socket connected" while the `STATE_CLIENT_SOCKET_CONNECTED`
branch of `on_timer` clears the bit, and "LED off - disconnected" while the
`STATE_DISCONNECTED` branch sets it.) -/
def status_led_lit (out_reg : Nat) : Bool := !(out_reg.testBit GPIO_PIN_LED_INT)

/-- The last-applied 3-bit command-LED mask: output register bits 12..14
(pins `GPIO_PIN_LED_1`..`GPIO_PIN_LED_3`), bit i set = command LED i on. -/
def command_led_mask (out_reg : Nat) : Nat := (out_reg >>> GPIO_PIN_LED_1) &&& 0x07

/-! ## Mutable globals of user_main.c -/

/-- The process-wide mutable globals of user_main.c that the core callbacks
share, plus the GPIO output register they drive. -/
structure DevState where
  /-- `static uint32 tick_index` -/
  tick_index : Nat
  /-- `static uint8 client_connection_state` -/
  client_connection_state : Nat
  /-- `static uint8 prev_wifi_sessions_num` -/
  prev_wifi_sessions_num : Nat
  /-- `static sint8 open_tcp_connections` (signed: duplicate disconnects may
  drive it negative) -/
  open_tcp_connections : Int
  /-- the 32-bit GPIO output register -/
  gpio_out : Nat
deriving DecidableEq, Repr

/-- The state of the globals right after `user_init`: all counters zero and
`STATE_DISCONNECTED`; the output register starts at 0 (the four
`gpio_output_set(0, 0, 1 << pin, 0)` calls in `user_init` only touch the
direction register). -/
def init_state : DevState :=
  { tick_index := 0
    client_connection_state := STATE_DISCONNECTED
    prev_wifi_sessions_num := 0
    open_tcp_connections := 0
    gpio_out := 0 }

/-! ## Digit decoder -/

/-- `process_digit_key` of user_main.c acting on the GPIO output register:
`uint8 num = (digit - CHAR_DIGITS_START) & 0x07;` followed by
`gpio_output_set(0x07 << GPIO_PIN_LED_1, (num ^ 0x07) << GPIO_PIN_LED_1, 0, 0);`.
The bitwise AND of a two's-complement `int` with `0x07` keeps its low three
bits, i.e. the value modulo 8, rendered here as `Int.emod _ 8` (non-negative). -/
def process_digit_key (digit : Int) (out_reg : Nat) : Nat :=
  let num : Nat := ((digit - CHAR_DIGITS_START).emod 8).toNat
  gpio_output_set (0x07 <<< GPIO_PIN_LED_1) ((num ^^^ 0x07) <<< GPIO_PIN_LED_1) 0 0 out_reg

/-! ## TCP receive path -/

/-- The byte test in `on_tcp_server_receive`'s loop body:
`last_char >= CHAR_DIGITS_START && last_char <= CHAR_DIGITS_END`.
Bytes are C `char` values (signed), so bytes 0x80..0xFF are negative and fail
the test just as values above `'7'` do. -/
def is_digit_key (b : Int) : Bool := CHAR_DIGITS_START ≤ b && b ≤ CHAR_DIGITS_END

/-- The scan loop of `on_tcp_server_receive`, presented on the buffer bytes in
reverse order (the C loop walks `idx = length` down to `1`, reading
`pusrdata[idx - 1]`).  Each iteration loads the byte into `last_char`; a byte in
`'0'..'7'` is dispatched to `process_digit_key` and leaves `last_char` nonzero
(digit codes are 48..55), so the loop's `!last_char` guard stops it; any other
byte (the NUL byte included) resets `last_char` to 0 and the scan continues.
Returns the list of bytes dispatched to `process_digit_key`, in dispatch
order. -/
def scan_from_end : List Int → List Int
  | [] => []
  | b :: rest => if is_digit_key b then [b] else scan_from_end rest

/-- `on_tcp_server_receive` of user_main.c on the shared state: for each byte the
backward scan dispatches, `process_digit_key` rewrites the GPIO output register;
nothing else is touched (the `length == 0` case dispatches nothing, matching
`scan_from_end [] = []`). -/
def on_tcp_server_receive (σ : DevState) (pusrdata : List Int) : DevState :=
  (scan_from_end pusrdata.reverse).foldl
    (fun s b => { s with gpio_out := process_digit_key b s.gpio_out }) σ

/-- `on_tcp_server_accepted`: `open_tcp_connections++` (callback registration has
no model content). -/
def on_tcp_server_accepted (σ : DevState) : DevState :=
  { σ with open_tcp_connections := σ.open_tcp_connections + 1 }

/-- `on_tcp_server_disconnect`: `open_tcp_connections--`. -/
def on_tcp_server_disconnect (σ : DevState) : DevState :=
  { σ with open_tcp_connections := σ.open_tcp_connections - 1 }

/-! ## Timer callback -/

/-- The state-update branch of `on_timer` (guarded by
`tick_index % TIMER_PERIOD_STATE_UPDATE == 0`), with the platform's
`wifi_softap_get_station_num()` result passed in as `wifi_sessions_num`.
Returns the new state and whether the informational session-count log line was
emitted.  C truthiness: `if (wifi_sessions_num)` is `≠ 0`, and
`if (open_tcp_connections)` is `≠ 0` on the signed counter. -/
def state_update_branch (wifi_sessions_num : Nat) (σ : DevState) : DevState × Bool :=
  let logged : Bool := wifi_sessions_num != σ.prev_wifi_sessions_num
  let σ1 := if logged then { σ with prev_wifi_sessions_num := wifi_sessions_num } else σ
  let σ2 :=
    if wifi_sessions_num ≠ 0 then
      if σ1.open_tcp_connections ≠ 0 then
        { σ1 with client_connection_state := STATE_CLIENT_SOCKET_CONNECTED }
      else
        { σ1 with client_connection_state := STATE_CLIENT_WIFI_CONNECTED }
    else
      { σ1 with client_connection_state := STATE_DISCONNECTED, open_tcp_connections := 0 }
  (σ2, logged)

/-- The status-LED branch of `on_timer` (guarded by
`tick_index % TIMER_PERIOD_WIFI_STATUS_LED == 0`).  The WiFi-connected case
reads `GPIO_REG_READ(GPIO_OUT_ADDRESS) & (1 << GPIO_PIN_LED_INT)` — i.e. output
bit 2 — and inverts it; the final `else` covers `STATE_DISCONNECTED` and any
other value. -/
def status_led_branch (σ : DevState) : DevState :=
  if σ.client_connection_state = STATE_CLIENT_SOCKET_CONNECTED then
    { σ with gpio_out := gpio_output_set 0 (1 <<< GPIO_PIN_LED_INT) 0 0 σ.gpio_out }
  else if σ.client_connection_state = STATE_CLIENT_WIFI_CONNECTED then
    if σ.gpio_out.testBit GPIO_PIN_LED_INT then
      { σ with gpio_out := gpio_output_set 0 (1 <<< GPIO_PIN_LED_INT) 0 0 σ.gpio_out }
    else
      { σ with gpio_out := gpio_output_set (1 <<< GPIO_PIN_LED_INT) 0 0 0 σ.gpio_out }
  else
    { σ with gpio_out := gpio_output_set (1 <<< GPIO_PIN_LED_INT) 0 0 0 σ.gpio_out }

/-- `on_timer` of user_main.c: both branch guards test the pre-increment
`tick_index` (the state-update branch never writes it); afterwards the counter
is incremented and reset to 0 once it reaches `TIMER_PERIOD_RESET`.  Returns
the new state and the session-count-log flag of the state-update branch. -/
def on_timer (wifi_sessions_num : Nat) (σ : DevState) : DevState × Bool :=
  let p :=
    if σ.tick_index % TIMER_PERIOD_STATE_UPDATE = 0 then
      state_update_branch wifi_sessions_num σ
    else (σ, false)
  let σ2 :=
    if p.1.tick_index % TIMER_PERIOD_WIFI_STATUS_LED = 0 then status_led_branch p.1 else p.1
  let t := σ2.tick_index + 1
  (if t ≥ TIMER_PERIOD_RESET then { σ2 with tick_index := 0 }
   else { σ2 with tick_index := t }, p.2)

/-! ## Event-level system model -/

/-- The platform callbacks that mutate the shared globals, with the data the
platform hands each one (the wifi session count for a timer tick, the received
bytes for a receive event).  `reconnect_error` only logs in the source, so it
is omitted: it would be the identity on `DevState`. -/
inductive Event where
  | timer (wifi_sessions_num : Nat)
  | accepted
  | disconnected
  | received (pusrdata : List Int)
deriving DecidableEq, Repr

/-- Dispatch of one platform callback on the shared state. -/
def step (σ : DevState) : Event → DevState
  | .timer s => (on_timer s σ).1
  | .accepted => on_tcp_server_accepted σ
  | .disconnected => on_tcp_server_disconnect σ
  | .received buf => on_tcp_server_receive σ buf

/-- Run a sequence of platform callbacks (the platform delivers them one at a
time on a single logical thread). -/
def run (σ : DevState) (events : List Event) : DevState := events.foldl step σ

/-- The state after `n` timer ticks from startup, with `sessions k` the wifi
session count the platform reports at tick `k`.  Timer-only traces suffice for
tick-cadence claims: no other callback touches `tick_index`. -/
def timer_trace (sessions : Nat → Nat) : Nat → DevState
  | 0 => init_state
  | n + 1 => (on_timer (sessions n) (timer_trace sessions n)).1

/-! ## Helper lemmas -/

/-- The backward scan dispatches exactly the first byte of the reversed buffer
that passes the digit test. -/
lemma scan_from_end_eq_find (l : List Int) :
    scan_from_end l = (l.find? is_digit_key).toList := by
  induction l with
  | nil => rfl
  | cons b rest ih =>
    by_cases hb : is_digit_key b
    · simp [scan_from_end, List.find?, hb]
    · simp [scan_from_end, List.find?, hb, ih]

lemma scan_from_end_length (l : List Int) : (scan_from_end l).length ≤ 1 := by
  induction l with
  | nil => simp [scan_from_end]
  | cons b rest ih =>
    by_cases hb : is_digit_key b
    · simp [scan_from_end, hb]
    · simpa [scan_from_end, hb] using ih

lemma scan_from_end_no_digit (l : List Int) (h : ∀ b ∈ l, is_digit_key b = false) :
    scan_from_end l = [] := by
  induction l with
  | nil => rfl
  | cons b rest ih =>
    have hb := h b (by simp)
    simp only [scan_from_end, hb, if_neg]
    exact ih fun x hx => h x (by simp [hx])

/-- The receive fold only ever rewrites the GPIO output register. -/
lemma receive_fold_frame (l : List Int) (σ : DevState) :
    ((l.foldl (fun s b => { s with gpio_out := process_digit_key b s.gpio_out }) σ).open_tcp_connections
        = σ.open_tcp_connections) ∧
    ((l.foldl (fun s b => { s with gpio_out := process_digit_key b s.gpio_out }) σ).client_connection_state
        = σ.client_connection_state) ∧
    ((l.foldl (fun s b => { s with gpio_out := process_digit_key b s.gpio_out }) σ).tick_index
        = σ.tick_index) ∧
    ((l.foldl (fun s b => { s with gpio_out := process_digit_key b s.gpio_out }) σ).prev_wifi_sessions_num
        = σ.prev_wifi_sessions_num) := by
  induction l generalizing σ with
  | nil => simp
  | cons b rest ih => simpa using ih { σ with gpio_out := process_digit_key b σ.gpio_out }

/-- The status-LED branch only ever rewrites the GPIO output register. -/
lemma status_led_branch_fields (σ : DevState) :
    ((status_led_branch σ).client_connection_state = σ.client_connection_state) ∧
    ((status_led_branch σ).open_tcp_connections = σ.open_tcp_connections) ∧
    ((status_led_branch σ).tick_index = σ.tick_index) ∧
    ((status_led_branch σ).prev_wifi_sessions_num = σ.prev_wifi_sessions_num) := by
  unfold status_led_branch
  split_ifs <;> simp

/-- Field-by-field characterisation of `on_timer` (all fields except the GPIO
register, which `claim_C6` treats). -/
lemma on_timer_fields (s : Nat) (σ : DevState) :
    ((on_timer s σ).1.client_connection_state =
      if σ.tick_index % TIMER_PERIOD_STATE_UPDATE = 0 then
        (if s ≠ 0 then
          (if σ.open_tcp_connections ≠ 0 then STATE_CLIENT_SOCKET_CONNECTED
           else STATE_CLIENT_WIFI_CONNECTED)
         else STATE_DISCONNECTED)
      else σ.client_connection_state) ∧
    ((on_timer s σ).1.open_tcp_connections =
      if σ.tick_index % TIMER_PERIOD_STATE_UPDATE = 0 ∧ s = 0 then 0
      else σ.open_tcp_connections) ∧
    ((on_timer s σ).1.prev_wifi_sessions_num =
      if σ.tick_index % TIMER_PERIOD_STATE_UPDATE = 0 then s
      else σ.prev_wifi_sessions_num) ∧
    ((on_timer s σ).2 =
      (decide (σ.tick_index % TIMER_PERIOD_STATE_UPDATE = 0) && (s != σ.prev_wifi_sessions_num))) ∧
    ((on_timer s σ).1.tick_index =
      if σ.tick_index + 1 ≥ TIMER_PERIOD_RESET then 0 else σ.tick_index + 1) := by
  unfold on_timer state_update_branch
  have hs := status_led_branch_fields
  split_ifs <;>
    simp_all [status_led_branch_fields, bne_iff_ne, apply_ite DevState.open_tcp_connections,
      apply_ite DevState.client_connection_state, apply_ite DevState.tick_index,
      apply_ite DevState.prev_wifi_sessions_num]

/-- Bit-level reading of `gpio_output_set` inside the 32-bit register. -/
lemma gpio_output_set_testBit (sm cm g i : Nat) (hi : i < 32) :
    (gpio_output_set sm cm 0 0 g).testBit i
      = ((g.testBit i || sm.testBit i) && !(cm.testBit i)) := by
  unfold gpio_output_set GPIO_REG_MASK
  rw [Nat.testBit_land, Nat.testBit_lor, Nat.testBit_xor, Nat.testBit_two_pow_sub_one]
  simp [hi]

lemma gpio_output_set_lt (sm cm g : Nat) (hcm : cm < 2 ^ 32) :
    gpio_output_set sm cm 0 0 g < 2 ^ 32 := by
  unfold gpio_output_set GPIO_REG_MASK
  calc (g ||| sm) &&& (2 ^ 32 - 1 ^^^ cm) ≤ 2 ^ 32 - 1 ^^^ cm := Nat.and_le_right
  _ < 2 ^ 32 := Nat.xor_lt_two_pow (by norm_num) hcm

lemma digit_num_lt (digit : Int) : ((digit - CHAR_DIGITS_START).emod 8).toNat < 8 := by
  have h1 : 0 ≤ (digit - CHAR_DIGITS_START).emod 8 :=
    Int.emod_nonneg _ (by norm_num)
  have h2 : (digit - CHAR_DIGITS_START).emod 8 < 8 :=
    Int.emod_lt_of_pos _ (by norm_num)
  omega

/-- After `process_digit_key`, register bits 12..14 hold exactly the decoded
3-bit pattern, whatever the register held before. -/
lemma process_digit_key_mask (digit : Int) (g : Nat) :
    command_led_mask (process_digit_key digit g)
      = ((digit - CHAR_DIGITS_START).emod 8).toNat := by
  set num : Nat := ((digit - CHAR_DIGITS_START).emod 8).toNat with hnum
  have hlt : num < 8 := digit_num_lt digit
  apply Nat.eq_of_testBit_eq
  intro j
  unfold command_led_mask GPIO_PIN_LED_1
  rw [Nat.testBit_land, Nat.testBit_shiftRight]
  by_cases hj : j < 3
  · have h7 : Nat.testBit 0x07 j = true := by
      interval_cases j <;> decide
    rw [h7]
    unfold process_digit_key
    rw [gpio_output_set_testBit _ _ _ _ (by omega)]
    have hsm : Nat.testBit (0x07 <<< GPIO_PIN_LED_1) (12 + j) = true := by
      unfold GPIO_PIN_LED_1
      rw [Nat.testBit_shiftLeft]
      simpa using h7
    have hcm : Nat.testBit ((num ^^^ 0x07) <<< GPIO_PIN_LED_1) (12 + j)
        = !(num.testBit j) := by
      unfold GPIO_PIN_LED_1
      rw [Nat.testBit_shiftLeft]
      simp [Nat.testBit_xor, h7]
    rw [hsm, hcm]
    simp
  · have h7 : Nat.testBit 0x07 j = false :=
      Nat.testBit_lt_two_pow (by calc (0x07 : Nat) < 2 ^ 3 := by norm_num
        _ ≤ 2 ^ j := Nat.pow_le_pow_right (by norm_num) (by omega))
    rw [h7]
    have hn : num.testBit j = false :=
      Nat.testBit_lt_two_pow (by calc num < 8 := hlt
        _ = 2 ^ 3 := by norm_num
        _ ≤ 2 ^ j := Nat.pow_le_pow_right (by norm_num) (by omega))
    simp [hn]

/-- `process_digit_key` leaves every register bit outside 12..14 alone. -/
lemma process_digit_key_frame (digit : Int) (g : Nat) (hg : g < 2 ^ 32) (i : Nat)
    (h12 : i ≠ 12) (h13 : i ≠ 13) (h14 : i ≠ 14) :
    (process_digit_key digit g).testBit i = g.testBit i := by
  set num : Nat := ((digit - CHAR_DIGITS_START).emod 8).toNat with hnum
  have hlt : num < 8 := digit_num_lt digit
  have hxor : num ^^^ 0x07 < 8 :=
    Nat.xor_lt_two_pow (n := 3) (by omega) (by norm_num)
  by_cases hi : i < 32
  · unfold process_digit_key
    rw [gpio_output_set_testBit _ _ _ _ hi]
    have hsm : Nat.testBit (0x07 <<< GPIO_PIN_LED_1) i = false := by
      unfold GPIO_PIN_LED_1
      rw [Nat.testBit_shiftLeft]
      rcases Nat.lt_or_ge i 12 with h | h
      · simp [Nat.not_le.mpr h]
      · have h3 : Nat.testBit 0x07 (i - 12) = false := by
          have : 3 ≤ i - 12 := by omega
          exact Nat.testBit_lt_two_pow (by calc (0x07 : Nat) < 2 ^ 3 := by norm_num
            _ ≤ 2 ^ (i - 12) := Nat.pow_le_pow_right (by norm_num) this)
        simp [h3]
    have hcm : Nat.testBit ((num ^^^ 0x07) <<< GPIO_PIN_LED_1) i = false := by
      unfold GPIO_PIN_LED_1
      rw [Nat.testBit_shiftLeft]
      rcases Nat.lt_or_ge i 12 with h | h
      · simp [Nat.not_le.mpr h]
      · have h3 : Nat.testBit (num ^^^ 0x07) (i - 12) = false := by
          have h312 : 3 ≤ i - 12 := by omega
          exact Nat.testBit_lt_two_pow (by calc num ^^^ 0x07 < 2 ^ 3 := by omega
            _ ≤ 2 ^ (i - 12) := Nat.pow_le_pow_right (by norm_num) h312)
        simp [h3]
    rw [hsm, hcm]
    simp
  · have hres : process_digit_key digit g < 2 ^ 32 := by
      unfold process_digit_key
      apply gpio_output_set_lt
      have hb : (num ^^^ 0x07) * 2 ^ 12 < 2 ^ 32 := by
        calc (num ^^^ 0x07) * 2 ^ 12 ≤ 7 * 2 ^ 12 :=
              Nat.mul_le_mul_right _ (by omega)
          _ < 2 ^ 32 := by norm_num
      unfold GPIO_PIN_LED_1
      simpa [Nat.shiftLeft_eq] using hb
    have h1 : (process_digit_key digit g).testBit i = false :=
      Nat.testBit_lt_two_pow (by calc process_digit_key digit g < 2 ^ 32 := hres
        _ ≤ 2 ^ i := Nat.pow_le_pow_right (by norm_num) (by omega))
    have h2 : g.testBit i = false :=
      Nat.testBit_lt_two_pow (by calc g < 2 ^ 32 := hg
        _ ≤ 2 ^ i := Nat.pow_le_pow_right (by norm_num) (by omega))
    rw [h1, h2]

lemma state_update_branch_tick (s : Nat) (σ : DevState) :
    (state_update_branch s σ).1.tick_index = σ.tick_index := by
  unfold state_update_branch
  split_ifs <;> simp [apply_ite DevState.tick_index]

/-- Behaviour of the status-LED branch on the (active-low) LED, by connection
state. -/
lemma status_led_lit_branch (τ : DevState) :
    (τ.client_connection_state = STATE_CLIENT_SOCKET_CONNECTED →
      status_led_lit (status_led_branch τ).gpio_out = true) ∧
    (τ.client_connection_state = STATE_CLIENT_WIFI_CONNECTED →
      status_led_lit (status_led_branch τ).gpio_out = !(status_led_lit τ.gpio_out)) ∧
    (τ.client_connection_state = STATE_DISCONNECTED →
      status_led_lit (status_led_branch τ).gpio_out = false) := by
  have hclear : ∀ g : Nat,
      (gpio_output_set 0 (1 <<< GPIO_PIN_LED_INT) 0 0 g).testBit GPIO_PIN_LED_INT = false := by
    intro g
    rw [gpio_output_set_testBit _ _ _ _ (by decide)]
    simp
  have hset : ∀ g : Nat,
      (gpio_output_set (1 <<< GPIO_PIN_LED_INT) 0 0 0 g).testBit GPIO_PIN_LED_INT = true := by
    intro g
    rw [gpio_output_set_testBit _ _ _ _ (by decide)]
    simp
  refine ⟨fun h2 => ?_, fun h1 => ?_, fun h0 => ?_⟩
  · unfold status_led_branch
    rw [if_pos h2]
    simp [status_led_lit, hclear]
  · unfold status_led_branch
    rw [if_neg (by simp [h1, STATE_CLIENT_WIFI_CONNECTED, STATE_CLIENT_SOCKET_CONNECTED]),
      if_pos h1]
    by_cases hb : τ.gpio_out.testBit GPIO_PIN_LED_INT
    · rw [if_pos hb]
      simp [status_led_lit, hclear, hb]
    · rw [if_neg hb]
      simp only [status_led_lit] at *
      simp [hset, hb]
  · unfold status_led_branch
    rw [if_neg (by simp [h0, STATE_DISCONNECTED, STATE_CLIENT_SOCKET_CONNECTED]),
      if_neg (by simp [h0, STATE_DISCONNECTED, STATE_CLIENT_WIFI_CONNECTED])]
    simp [status_led_lit, hset]

lemma count_mult_50 (a : Nat) :
    ((Finset.Ico a (a + 1000)).filter (fun n => n % 50 = 0)).card = 20 := by
  have himg : (Finset.Ico a (a + 1000)).filter (fun n => n % 50 = 0)
      = (Finset.Ico ((a + 49) / 50) ((a + 49) / 50 + 20)).image (fun j => 50 * j) := by
    ext n
    simp only [Finset.mem_filter, Finset.mem_Ico, Finset.mem_image]
    constructor
    · rintro ⟨⟨h1, h2⟩, h3⟩
      exact ⟨n / 50, by omega, by omega⟩
    · rintro ⟨j, hj, rfl⟩
      omega
  rw [himg, Finset.card_image_of_injective _ (fun x y h => by omega)]
  simp

lemma count_mult_5 (a : Nat) :
    ((Finset.Ico a (a + 1000)).filter (fun n => n % 5 = 0)).card = 200 := by
  have himg : (Finset.Ico a (a + 1000)).filter (fun n => n % 5 = 0)
      = (Finset.Ico ((a + 4) / 5) ((a + 4) / 5 + 200)).image (fun j => 5 * j) := by
    ext n
    simp only [Finset.mem_filter, Finset.mem_Ico, Finset.mem_image]
    constructor
    · rintro ⟨⟨h1, h2⟩, h3⟩
      exact ⟨n / 5, by omega, by omega⟩
    · rintro ⟨j, hj, rfl⟩
      omega
  rw [himg, Finset.card_image_of_injective _ (fun x y h => by omega)]
  simp

lemma on_timer_tick (s : Nat) (σ : DevState) :
    (on_timer s σ).1.tick_index =
      if σ.tick_index + 1 ≥ TIMER_PERIOD_RESET then 0 else σ.tick_index + 1 :=
  (on_timer_fields s σ).2.2.2.2

lemma timer_trace_tick (sessions : Nat → Nat) (n : Nat) :
    (timer_trace sessions n).tick_index = n % TIMER_PERIOD_RESET := by
  induction n with
  | zero => simp [timer_trace, init_state]
  | succ n ih =>
    show (on_timer (sessions n) (timer_trace sessions n)).1.tick_index = _
    rw [on_timer_tick, ih]
    unfold TIMER_PERIOD_RESET
    split_ifs <;> omega

/-! ## Claim theorems -/

/-- C1, counterexample: the claim says the backward scan stops at the first byte
that is not in range and that the input "57x" (bytes 53, 55, 120) processes zero
digits.  In the code the scan skips the non-digit trailing byte 120 and
dispatches the digit 55, and the GPIO register is written accordingly. -/
theorem claim_C1_counterexample :
    scan_from_end (([53, 55, 120] : List Int).reverse) = [55] ∧
    ([55] : List Int) ≠ [] ∧
    (on_tcp_server_receive init_state [53, 55, 120]).gpio_out ≠ init_state.gpio_out := by
  refine ⟨by decide, by decide, by decide⟩

/-- C1, amended: the backward byte scan of `on_tcp_server_receive` skips
non-digit bytes and stops immediately after the first byte in `'0'..'7'`
counting from the last byte: the dispatched bytes are exactly the first element
of the reversed buffer passing the digit test (so nothing earlier in the buffer
than that first backward digit is ever dispatched).  For the input "57x" exactly
one digit, `'7'`, is processed. -/
theorem claim_C1 :
    (∀ pusrdata : List Int,
      scan_from_end pusrdata.reverse = (pusrdata.reverse.find? is_digit_key).toList) ∧
    scan_from_end (([53, 55, 120] : List Int).reverse) = [55] := by
  refine ⟨fun pusrdata => scan_from_end_eq_find pusrdata.reverse, by decide⟩

/-- C2: `on_tcp_server_receive` dispatches at most one character to
`process_digit_key`; the dispatched character is the first byte in `'0'..'7'`
found scanning backward from the last byte; "abc5" (97 98 99 53) processes only
`'5'` and "123" (49 50 51) processes only the last character `'3'`. -/
theorem claim_C2 :
    (∀ pusrdata : List Int, (scan_from_end pusrdata.reverse).length ≤ 1) ∧
    (∀ (pusrdata : List Int) (b : Int),
      scan_from_end pusrdata.reverse = [b] → pusrdata.reverse.find? is_digit_key = some b) ∧
    scan_from_end (([97, 98, 99, 53] : List Int).reverse) = [53] ∧
    scan_from_end (([49, 50, 51] : List Int).reverse) = [51] := by
  refine ⟨fun pusrdata => scan_from_end_length pusrdata.reverse,
    fun pusrdata b hb => ?_, by decide, by decide⟩
  have h := scan_from_end_eq_find pusrdata.reverse
  rw [hb] at h
  cases hf : pusrdata.reverse.find? is_digit_key with
  | none => rw [hf] at h; simp at h
  | some c => rw [hf] at h; simp at h; rw [h]

/-- C2, witness: the characterisation evaluated on the concrete input "123". -/
theorem claim_C2_witness :
    (scan_from_end (([49, 50, 51] : List Int).reverse)).length ≤ 1 ∧
    ([49, 50, 51] : List Int).reverse.find? is_digit_key = some 51 :=
  ⟨claim_C2.1 [49, 50, 51], claim_C2.2.1 [49, 50, 51] 51 (by decide)⟩

/-- C3: at a state-update tick with queried session count `s`: `s = 0` forces
`STATE_DISCONNECTED` and resets `open_tcp_connections` to 0; `s > 0` with a
positive open count yields `STATE_CLIENT_SOCKET_CONNECTED`; `s > 0` with a zero
open count yields `STATE_CLIENT_WIFI_CONNECTED`. -/
theorem claim_C3 (s : Nat) (σ : DevState)
    (h : σ.tick_index % TIMER_PERIOD_STATE_UPDATE = 0) :
    (s = 0 → (on_timer s σ).1.client_connection_state = STATE_DISCONNECTED ∧
              (on_timer s σ).1.open_tcp_connections = 0) ∧
    (0 < s → 0 < σ.open_tcp_connections →
      (on_timer s σ).1.client_connection_state = STATE_CLIENT_SOCKET_CONNECTED) ∧
    (0 < s → σ.open_tcp_connections = 0 →
      (on_timer s σ).1.client_connection_state = STATE_CLIENT_WIFI_CONNECTED) := by
  obtain ⟨hc, ho, -, -, -⟩ := on_timer_fields s σ
  rw [h] at hc ho
  refine ⟨fun hs => ?_, fun hs hop => ?_, fun hs hop => ?_⟩
  · subst hs; simp at hc ho; exact ⟨hc, ho⟩
  · have hs' : s ≠ 0 := by omega
    have hop' : σ.open_tcp_connections ≠ 0 := by omega
    rw [hc]; simp [hs', hop']
  · have hs' : s ≠ 0 := by omega
    rw [hc]; simp [hs', hop]

/-- C3, witness: the state-update tick evaluated at startup with zero
sessions. -/
theorem claim_C3_witness :
    (init_state.tick_index % TIMER_PERIOD_STATE_UPDATE = 0) ∧
    ((0 = 0 → (on_timer 0 init_state).1.client_connection_state = STATE_DISCONNECTED ∧
              (on_timer 0 init_state).1.open_tcp_connections = 0) ∧
     (0 < 0 → 0 < init_state.open_tcp_connections →
       (on_timer 0 init_state).1.client_connection_state = STATE_CLIENT_SOCKET_CONNECTED) ∧
     (0 < 0 → init_state.open_tcp_connections = 0 →
       (on_timer 0 init_state).1.client_connection_state = STATE_CLIENT_WIFI_CONNECTED)) :=
  ⟨by decide, claim_C3 0 init_state (by decide)⟩

/-- C4, counterexample: a duplicate disconnect before any accept drives
`open_tcp_connections` to -1; the next state-update tick, observing one wifi
session, still sets `STATE_CLIENT_SOCKET_CONNECTED` because the code tests
truthiness (`if (open_tcp_connections)`), not positivity.  So the claimed
invariant "SocketConnected only when the setting tick saw open count > 0" fails
on this reachable interleaving. -/
theorem claim_C4_counterexample :
    (run init_state [Event.disconnected]).open_tcp_connections = -1 ∧
    ¬ (0 : Int) < (run init_state [Event.disconnected]).open_tcp_connections ∧
    (run init_state [Event.disconnected]).tick_index % TIMER_PERIOD_STATE_UPDATE = 0 ∧
    (run init_state [Event.disconnected, Event.timer 1]).client_connection_state
      = STATE_CLIENT_SOCKET_CONNECTED := by
  refine ⟨by decide, by decide, by decide, by decide⟩

/-- C4, amended: a state-update tick sets `STATE_CLIENT_SOCKET_CONNECTED` if and
only if the queried session count is positive and `open_tcp_connections` is
nonzero (possibly negative, from tolerated duplicate-disconnect drift); a
state-update tick observing zero sessions forces `STATE_DISCONNECTED` and resets
the open count to 0; and no callback other than the timer ever changes
`client_connection_state`, so these ticks are the only writers of the state. -/
theorem claim_C4 (s : Nat) (σ : DevState) (e : Event)
    (h : σ.tick_index % TIMER_PERIOD_STATE_UPDATE = 0)
    (he : ∀ w : Nat, e ≠ Event.timer w) :
    ((on_timer s σ).1.client_connection_state = STATE_CLIENT_SOCKET_CONNECTED ↔
      (0 < s ∧ σ.open_tcp_connections ≠ 0)) ∧
    (s = 0 → (on_timer s σ).1.client_connection_state = STATE_DISCONNECTED ∧
             (on_timer s σ).1.open_tcp_connections = 0) ∧
    (step σ e).client_connection_state = σ.client_connection_state := by
  obtain ⟨hc, ho, -, -, -⟩ := on_timer_fields s σ
  rw [h] at hc ho
  refine ⟨?_, fun hs => ?_, ?_⟩
  · rw [hc]
    constructor
    · intro hcc
      by_cases h1 : s = 0
      · simp [h1] at hcc
        exact absurd hcc (by decide)
      · by_cases h2 : σ.open_tcp_connections = 0
        · simp [h1, h2] at hcc
          exact absurd hcc (by decide)
        · exact ⟨by omega, h2⟩
    · rintro ⟨hs, hop⟩
      have hs' : s ≠ 0 := by omega
      simp [hs', hop]
  · subst hs; simp at hc ho; exact ⟨hc, ho⟩
  · cases e with
    | timer w => exact absurd rfl (he w)
    | accepted => rfl
    | disconnected => rfl
    | received buf => exact (receive_fold_frame _ σ).2.1

/-- C4, witness: the amended transition evaluated with one session and a drifted
open count of -1 (the state that refutes the original claim), and a non-timer
event leaving the connection state alone. -/
theorem claim_C4_witness :
    ((DevState.mk 0 0 0 (-1) 0).tick_index % TIMER_PERIOD_STATE_UPDATE = 0) ∧
    (((on_timer 1 (DevState.mk 0 0 0 (-1) 0)).1.client_connection_state
        = STATE_CLIENT_SOCKET_CONNECTED ↔
      (0 < 1 ∧ (DevState.mk 0 0 0 (-1) 0).open_tcp_connections ≠ 0)) ∧
     (1 = 0 → (on_timer 1 (DevState.mk 0 0 0 (-1) 0)).1.client_connection_state
          = STATE_DISCONNECTED ∧
        (on_timer 1 (DevState.mk 0 0 0 (-1) 0)).1.open_tcp_connections = 0) ∧
     (step (DevState.mk 0 0 0 (-1) 0) Event.accepted).client_connection_state
       = (DevState.mk 0 0 0 (-1) 0).client_connection_state) :=
  ⟨by decide, claim_C4 1 (DevState.mk 0 0 0 (-1) 0) Event.accepted (by decide)
    (fun w h => Event.noConfusion h)⟩

/-- C5: for a character in `'0'..'7'`, `process_digit_key` leaves the
command-LED mask equal to the decoded pattern `(c - '0') & 0b111` (here
`emod 8`, which on this range is plainly `c - '0'`), for any prior register
value: the previous mask is fully overwritten, not OR-ed into. -/
theorem claim_C5 (digit : Int) (g : Nat)
    (h1 : CHAR_DIGITS_START ≤ digit) (h2 : digit ≤ CHAR_DIGITS_END) :
    command_led_mask (process_digit_key digit g)
      = ((digit - CHAR_DIGITS_START).emod 8).toNat ∧
    (digit - CHAR_DIGITS_START).emod 8 = digit - CHAR_DIGITS_START := by
  refine ⟨process_digit_key_mask digit g, ?_⟩
  simp only [CHAR_DIGITS_START, CHAR_DIGITS_END] at h1 h2 ⊢
  apply Int.emod_eq_of_lt <;> omega

/-- C5, witness: decoding `'5'` (53) on a register with all low 20 bits set. -/
theorem claim_C5_witness :
    (CHAR_DIGITS_START ≤ (53 : Int) ∧ (53 : Int) ≤ CHAR_DIGITS_END) ∧
    (command_led_mask (process_digit_key 53 0xFFFFF)
        = (((53 : Int) - CHAR_DIGITS_START).emod 8).toNat ∧
      ((53 : Int) - CHAR_DIGITS_START).emod 8 = (53 : Int) - CHAR_DIGITS_START) :=
  ⟨by decide, claim_C5 53 0xFFFFF (by decide) (by decide)⟩

/-- C6: at a status-LED tick the GPIO register is rewritten by the status-LED
branch applied to the connection state current at that point (updated first if
the same tick is also a state-update tick); that branch forces the (active-low)
status LED on under `STATE_CLIENT_SOCKET_CONNECTED`, reads and inverts the
current output bit under `STATE_CLIENT_WIFI_CONNECTED`, and forces the LED off
under `STATE_DISCONNECTED`. -/
theorem claim_C6 (s : Nat) (σ τ : DevState)
    (h : σ.tick_index % TIMER_PERIOD_WIFI_STATUS_LED = 0) :
    ((on_timer s σ).1.gpio_out =
      (status_led_branch
        (if σ.tick_index % TIMER_PERIOD_STATE_UPDATE = 0
         then (state_update_branch s σ).1 else σ)).gpio_out) ∧
    (τ.client_connection_state = STATE_CLIENT_SOCKET_CONNECTED →
      status_led_lit (status_led_branch τ).gpio_out = true) ∧
    (τ.client_connection_state = STATE_CLIENT_WIFI_CONNECTED →
      status_led_lit (status_led_branch τ).gpio_out = !(status_led_lit τ.gpio_out)) ∧
    (τ.client_connection_state = STATE_DISCONNECTED →
      status_led_lit (status_led_branch τ).gpio_out = false) := by
  obtain ⟨ha, hb, hc⟩ := status_led_lit_branch τ
  refine ⟨?_, ha, hb, hc⟩
  by_cases hf : σ.tick_index % TIMER_PERIOD_STATE_UPDATE = 0
  · simp [on_timer, hf, h, state_update_branch_tick, apply_ite DevState.gpio_out]
  · simp [on_timer, hf, h, apply_ite DevState.gpio_out]

/-- C6, witness: the startup tick, and the toggle case on a wifi-connected state
with the LED bit clear. -/
theorem claim_C6_witness :
    (init_state.tick_index % TIMER_PERIOD_WIFI_STATUS_LED = 0) ∧
    (((on_timer 0 init_state).1.gpio_out =
        (status_led_branch
          (if init_state.tick_index % TIMER_PERIOD_STATE_UPDATE = 0
           then (state_update_branch 0 init_state).1 else init_state)).gpio_out) ∧
     ((DevState.mk 0 1 0 0 0).client_connection_state = STATE_CLIENT_SOCKET_CONNECTED →
       status_led_lit (status_led_branch (DevState.mk 0 1 0 0 0)).gpio_out = true) ∧
     ((DevState.mk 0 1 0 0 0).client_connection_state = STATE_CLIENT_WIFI_CONNECTED →
       status_led_lit (status_led_branch (DevState.mk 0 1 0 0 0)).gpio_out
         = !(status_led_lit (DevState.mk 0 1 0 0 0).gpio_out)) ∧
     ((DevState.mk 0 1 0 0 0).client_connection_state = STATE_DISCONNECTED →
       status_led_lit (status_led_branch (DevState.mk 0 1 0 0 0)).gpio_out = false)) :=
  ⟨by decide, claim_C6 0 init_state (DevState.mk 0 1 0 0 0) (by decide)⟩

/-- C7: the tick counter advances by exactly one per timer invocation and wraps
to 0 on reaching `TIMER_PERIOD_RESET`, so after `n` ticks it reads
`n % 1000000`; and over any window of 1000 consecutive ticks, wrap boundary
included and for every sequence of session counts, the state-update branch
guard holds exactly 20 times and the status-LED branch guard exactly 200
times. -/
theorem claim_C7 :
    (∀ (s : Nat) (σ : DevState), (on_timer s σ).1.tick_index =
        if σ.tick_index + 1 ≥ TIMER_PERIOD_RESET then 0 else σ.tick_index + 1) ∧
    (∀ (sessions : Nat → Nat) (n : Nat),
      (timer_trace sessions n).tick_index = n % TIMER_PERIOD_RESET) ∧
    (∀ (sessions : Nat → Nat) (a : Nat),
      ((Finset.Ico a (a + 1000)).filter
        (fun n => (timer_trace sessions n).tick_index % TIMER_PERIOD_STATE_UPDATE = 0)).card
          = 20) ∧
    (∀ (sessions : Nat → Nat) (a : Nat),
      ((Finset.Ico a (a + 1000)).filter
        (fun n => (timer_trace sessions n).tick_index % TIMER_PERIOD_WIFI_STATUS_LED = 0)).card
          = 200) := by
  refine ⟨on_timer_tick, timer_trace_tick, fun sessions a => ?_, fun sessions a => ?_⟩
  · have hco : ∀ n ∈ Finset.Ico a (a + 1000),
        ((timer_trace sessions n).tick_index % TIMER_PERIOD_STATE_UPDATE = 0) ↔ (n % 50 = 0) := by
      intro n _
      rw [timer_trace_tick]
      unfold TIMER_PERIOD_RESET TIMER_PERIOD_STATE_UPDATE
      rw [Nat.mod_mod_of_dvd _ (by norm_num)]
    rw [Finset.filter_congr hco]
    exact count_mult_50 a
  · have hco : ∀ n ∈ Finset.Ico a (a + 1000),
        ((timer_trace sessions n).tick_index % TIMER_PERIOD_WIFI_STATUS_LED = 0) ↔ (n % 5 = 0) := by
      intro n _
      rw [timer_trace_tick]
      unfold TIMER_PERIOD_RESET TIMER_PERIOD_WIFI_STATUS_LED
      rw [Nat.mod_mod_of_dvd _ (by norm_num)]
    rw [Finset.filter_congr hco]
    exact count_mult_5 a

/-- C8: at a state-update tick the informational session-count log line is
emitted if and only if the queried count differs from the previously observed
one, and the previous-observation variable ends the tick holding the fresh
count. -/
theorem claim_C8 (s : Nat) (σ : DevState)
    (h : σ.tick_index % TIMER_PERIOD_STATE_UPDATE = 0) :
    ((on_timer s σ).2 = true ↔ s ≠ σ.prev_wifi_sessions_num) ∧
    (on_timer s σ).1.prev_wifi_sessions_num = s := by
  obtain ⟨-, -, hp, hl, -⟩ := on_timer_fields s σ
  rw [h] at hp hl
  refine ⟨?_, by simpa using hp⟩
  rw [hl]
  simp

/-- C8, witness: a startup tick observing three sessions (previous observation
zero) logs and updates the observation. -/
theorem claim_C8_witness :
    (init_state.tick_index % TIMER_PERIOD_STATE_UPDATE = 0) ∧
    (((on_timer 3 init_state).2 = true ↔ 3 ≠ init_state.prev_wifi_sessions_num) ∧
     (on_timer 3 init_state).1.prev_wifi_sessions_num = 3) :=
  ⟨by decide, claim_C8 3 init_state (by decide)⟩

/-- C9: a received buffer with no byte in `'0'..'7'` (empty and NUL-containing
buffers included) leaves the GPIO output register untouched, and any received
buffer whatsoever leaves `open_tcp_connections`, `client_connection_state` and
`tick_index` unchanged. -/
theorem claim_C9 (σ : DevState) (pusrdata buf2 : List Int)
    (hnd : ∀ b ∈ pusrdata, is_digit_key b = false) :
    (on_tcp_server_receive σ pusrdata).gpio_out = σ.gpio_out ∧
    (on_tcp_server_receive σ buf2).open_tcp_connections = σ.open_tcp_connections ∧
    (on_tcp_server_receive σ buf2).client_connection_state = σ.client_connection_state ∧
    (on_tcp_server_receive σ buf2).tick_index = σ.tick_index := by
  unfold on_tcp_server_receive
  obtain ⟨ho, hc, ht, -⟩ := receive_fold_frame (scan_from_end buf2.reverse) σ
  refine ⟨?_, ho, hc, ht⟩
  have hscan : scan_from_end pusrdata.reverse = [] :=
    scan_from_end_no_digit _ fun b hb => hnd b (List.mem_reverse.mp hb)
  rw [hscan]
  rfl

/-- C9, witness: a digit-free buffer (NUL byte, `'x'`, newline) leaves the GPIO
register alone, while the digit-bearing buffer "57x" still leaves the counters
and state alone. -/
theorem claim_C9_witness :
    (∀ b ∈ ([0, 120, 10] : List Int), is_digit_key b = false) ∧
    ((on_tcp_server_receive init_state [0, 120, 10]).gpio_out = init_state.gpio_out ∧
     (on_tcp_server_receive init_state [53, 55, 120]).open_tcp_connections
       = init_state.open_tcp_connections ∧
     (on_tcp_server_receive init_state [53, 55, 120]).client_connection_state
       = init_state.client_connection_state ∧
     (on_tcp_server_receive init_state [53, 55, 120]).tick_index = init_state.tick_index) :=
  ⟨by decide, claim_C9 init_state [0, 120, 10] [53, 55, 120] (by decide)⟩

/-- C10: `process_digit_key` is total: for every character value (invalid ones
included), the computed pattern lies in 0..7, and the GPIO write changes no
register bit outside the three command-LED pins 12, 13, 14 — in particular the
status LED pin 2 is untouched. -/
theorem claim_C10 (digit : Int) (g i : Nat) (hg : g < 2 ^ 32)
    (h12 : i ≠ 12) (h13 : i ≠ 13) (h14 : i ≠ 14) :
    (0 ≤ (digit - CHAR_DIGITS_START).emod 8 ∧ (digit - CHAR_DIGITS_START).emod 8 < 8) ∧
    (process_digit_key digit g).testBit i = g.testBit i :=
  ⟨⟨Int.emod_nonneg _ (by norm_num), Int.emod_lt_of_pos _ (by norm_num)⟩,
    process_digit_key_frame digit g hg i h12 h13 h14⟩

/-- C10, witness: character value -1 (no digit) on a register with the status
LED pin set: the pattern is still in range and the status LED bit survives. -/
theorem claim_C10_witness :
    ((5 : Nat) < 2 ^ 32 ∧ GPIO_PIN_LED_INT ≠ 12 ∧ GPIO_PIN_LED_INT ≠ 13 ∧ GPIO_PIN_LED_INT ≠ 14) ∧
    ((0 ≤ ((-1 : Int) - CHAR_DIGITS_START).emod 8 ∧
        ((-1 : Int) - CHAR_DIGITS_START).emod 8 < 8) ∧
      (process_digit_key (-1) 5).testBit GPIO_PIN_LED_INT = Nat.testBit 5 GPIO_PIN_LED_INT) :=
  ⟨by norm_num [GPIO_PIN_LED_INT], claim_C10 (-1) 5 GPIO_PIN_LED_INT (by norm_num)
    (by decide) (by decide) (by decide)⟩
